import Mathlib

/-!
Verification of the LUNTRA deal-calculator financial engine (src/app.py).

The engine is a set of pure arithmetic functions over scalar numbers.  We
embed them over the exact rationals `ℚ`: every input the application feeds
them (prices, percentage sliders, a 30-year term) is a rational number, and
the formulas are closed-form field expressions, so the rational embedding
mirrors the source expressions one for one.  The loan term `years` is a
natural number (the application always passes the literal `30`), so the
exponent `years * 12` is a natural-number power.

Python raises `ZeroDivisionError` on division by zero while `ℚ` totalises
it as `0`; where a claim is about definedness we use an `Option`-valued
variant (`calculate_monthly_mortgage_paymentE`) that returns `none`
exactly when the source would divide by zero.
-/

namespace Luntra

/-- `calculate_monthly_mortgage_payment` (src/app.py lines 26-35):
monthly P&I payment; straight-line `principal / (years*12)` when the
annual rate is zero, otherwise the amortizing-loan formula. -/
def calculate_monthly_mortgage_payment (principal annual_rate : ℚ) (years : ℕ) : ℚ :=
  if annual_rate = 0 then principal / (years * 12)
  else
    let monthly_rate := annual_rate / 100 / 12
    let num_payments := years * 12
    principal * (monthly_rate * (1 + monthly_rate) ^ num_payments) /
      ((1 + monthly_rate) ^ num_payments - 1)

/-- Error-aware variant of `calculate_monthly_mortgage_payment`: returns
`none` exactly where the Python source raises `ZeroDivisionError`
(denominator of the branch actually taken is zero), `some` of the payment
otherwise. -/
def calculate_monthly_mortgage_paymentE (principal annual_rate : ℚ) (years : ℕ) : Option ℚ :=
  if annual_rate = 0 then
    if ((years : ℚ) * 12) = 0 then none
    else some (principal / (years * 12))
  else
    let monthly_rate := annual_rate / 100 / 12
    let num_payments := years * 12
    if (1 + monthly_rate) ^ num_payments - 1 = 0 then none
    else some (principal * (monthly_rate * (1 + monthly_rate) ^ num_payments) /
      ((1 + monthly_rate) ^ num_payments - 1))

/-- `calculate_piti` (src/app.py lines 37-42): P&I plus monthly taxes and
monthly insurance.  HOA is not an argument. -/
def calculate_piti (principal annual_rate : ℚ) (years : ℕ)
    (annual_taxes annual_insurance : ℚ) : ℚ :=
  calculate_monthly_mortgage_payment principal annual_rate years
    + annual_taxes / 12 + annual_insurance / 12

/-- `calculate_noi` (src/app.py lines 44-46). -/
def calculate_noi (gross_rental_income operating_expenses : ℚ) : ℚ :=
  gross_rental_income - operating_expenses

/-- `calculate_egi` (src/app.py lines 48-50). -/
def calculate_egi (gross_rental_income vacancy_rate : ℚ) : ℚ :=
  gross_rental_income * (1 - vacancy_rate / 100)

/-- `calculate_operating_expenses` (src/app.py lines 52-57). -/
def calculate_operating_expenses (egi maintenance_pct capex_pct prop_mgmt_pct utilities : ℚ) : ℚ :=
  egi * (maintenance_pct / 100) + egi * (capex_pct / 100)
    + egi * (prop_mgmt_pct / 100) + utilities

/-- `calculate_cash_flow` (src/app.py lines 59-61). -/
def calculate_cash_flow (noi piti : ℚ) : ℚ :=
  noi / 12 - piti

/-- `calculate_cap_rate` (src/app.py lines 63-67): guarded to return `0`
when the purchase price is `0`. -/
def calculate_cap_rate (noi purchase_price : ℚ) : ℚ :=
  if purchase_price = 0 then 0
  else noi / purchase_price * 100

/-- `calculate_cash_on_cash_return` (src/app.py lines 69-73): guarded to
return `0` when total cash invested is `0`. -/
def calculate_cash_on_cash_return (annual_cash_flow total_cash_invested : ℚ) : ℚ :=
  if total_cash_invested = 0 then 0
  else annual_cash_flow / total_cash_invested * 100

/-- The cap-rate heuristic of `main` (src/app.py lines 431-436): the
`if cap_rate >= 8 / elif cap_rate >= 6 / else` cascade, abstracted to the
label it prints. -/
def cap_rate_label (cap_rate : ℚ) : String :=
  if cap_rate ≥ 8 then "Strong"
  else if cap_rate ≥ 6 then "Moderate"
  else "Low"

/-- `down_payment` as computed in `main` (src/app.py line 369). -/
def down_payment (purchase_price down_payment_pct : ℚ) : ℚ :=
  purchase_price * (down_payment_pct / 100)

/-- `loan_amount` as computed in `main` (src/app.py line 370). -/
def loan_amount (purchase_price down_payment_pct : ℚ) : ℚ :=
  purchase_price - down_payment purchase_price down_payment_pct

/-- `piti` as computed in `main` (src/app.py line 380): the engine PITI for
a 30-year term plus the monthly HOA. -/
def app_piti (loan_amt interest_rate annual_property_tax annual_insurance monthly_hoa : ℚ) : ℚ :=
  calculate_piti loan_amt interest_rate 30 annual_property_tax annual_insurance + monthly_hoa

/-- `monthly_cash_flow` as computed in `main` (src/app.py line 381). -/
def app_monthly_cash_flow
    (noi loan_amt interest_rate annual_property_tax annual_insurance monthly_hoa : ℚ) : ℚ :=
  calculate_cash_flow noi
    (app_piti loan_amt interest_rate annual_property_tax annual_insurance monthly_hoa)

/-- Helper: for a positive rate and a positive term the amortization
denominator `(1+r)^n - 1` is positive. -/
lemma amort_denom_pos (annual_rate : ℚ) (years : ℕ) (hr : 0 < annual_rate) (hy : 0 < years) :
    0 < (1 + annual_rate / 100 / 12) ^ (years * 12) - 1 := by
  have hr' : 0 < annual_rate / 100 / 12 := by positivity
  have h1 : (1 : ℚ) < 1 + annual_rate / 100 / 12 := by linarith
  have hn : years * 12 ≠ 0 := by omega
  have := one_lt_pow₀ h1 hn
  linarith

/-- C1: for a nonzero annual rate the payment is
`P * (r*(1+r)^n) / ((1+r)^n - 1)` with `r = rate/100/12`, `n = years*12`,
and for a zero rate it is exactly `P / (years*12)`. -/
theorem C1_mortgage_payment_formula (principal annual_rate : ℚ) (years : ℕ) :
    (annual_rate ≠ 0 →
      calculate_monthly_mortgage_payment principal annual_rate years =
        principal * ((annual_rate / 100 / 12) * (1 + annual_rate / 100 / 12) ^ (years * 12)) /
          ((1 + annual_rate / 100 / 12) ^ (years * 12) - 1)) ∧
    (annual_rate = 0 →
      calculate_monthly_mortgage_payment principal annual_rate years =
        principal / ((years : ℚ) * 12)) := by
  constructor
  · intro h
    simp only [calculate_monthly_mortgage_payment, if_neg h]
  · intro h
    simp only [calculate_monthly_mortgage_payment, if_pos h]

/-- Witness for C1 at concrete inputs (rate 6, 1 year; rate 0, 1 year). -/
theorem C1_mortgage_payment_formula_witness :
    ((6 : ℚ) ≠ 0 ∧
      calculate_monthly_mortgage_payment 1200 6 1 =
        1200 * (((6 : ℚ) / 100 / 12) * (1 + (6 : ℚ) / 100 / 12) ^ (1 * 12)) /
          ((1 + (6 : ℚ) / 100 / 12) ^ (1 * 12) - 1)) ∧
    ((0 : ℚ) = 0 ∧
      calculate_monthly_mortgage_payment 1200 0 1 = 1200 / (((1 : ℕ) : ℚ) * 12)) :=
  ⟨⟨by norm_num, (C1_mortgage_payment_formula 1200 6 1).1 (by norm_num)⟩,
   ⟨rfl, (C1_mortgage_payment_formula 1200 0 1).2 rfl⟩⟩

/-- C2: cap rate and cash-on-cash return are total: both return `0` when
their denominator argument is `0`, and otherwise compute the ratio times
100; no division-by-zero fault occurs. -/
theorem C2_cap_rate_coc_total (noi annual_cash_flow purchase_price total_cash_invested : ℚ) :
    calculate_cap_rate noi 0 = 0 ∧
    (purchase_price ≠ 0 →
      calculate_cap_rate noi purchase_price = noi / purchase_price * 100) ∧
    calculate_cash_on_cash_return annual_cash_flow 0 = 0 ∧
    (total_cash_invested ≠ 0 →
      calculate_cash_on_cash_return annual_cash_flow total_cash_invested =
        annual_cash_flow / total_cash_invested * 100) := by
  refine ⟨rfl, fun h => ?_, rfl, fun h => ?_⟩
  · simp only [calculate_cap_rate, if_neg h]
  · simp only [calculate_cash_on_cash_return, if_neg h]

/-- Witness for C2 at concrete nonzero denominators. -/
theorem C2_cap_rate_coc_total_witness :
    (400000 : ℚ) ≠ 0 ∧ calculate_cap_rate 24000 400000 = 24000 / 400000 * 100 ∧
    (100000 : ℚ) ≠ 0 ∧
      calculate_cash_on_cash_return 6000 100000 = 6000 / 100000 * 100 :=
  ⟨by norm_num, (C2_cap_rate_coc_total 24000 6000 400000 100000).2.1 (by norm_num),
   by norm_num, (C2_cap_rate_coc_total 24000 6000 400000 100000).2.2.2 (by norm_num)⟩

/-- C3: the cap-rate classifier labels `x` Strong iff `x ≥ 8`, Moderate iff
`6 ≤ x < 8`, Low iff `x < 6`; exactly `8` is Strong and `7.999999` is
Moderate. -/
theorem C3_cap_rate_classifier (x : ℚ) :
    (cap_rate_label x = "Strong" ↔ 8 ≤ x) ∧
    (cap_rate_label x = "Moderate" ↔ 6 ≤ x ∧ x < 8) ∧
    (cap_rate_label x = "Low" ↔ x < 6) ∧
    cap_rate_label 8 = "Strong" ∧
    cap_rate_label (7999999 / 1000000) = "Moderate" := by
  have hSM : ("Strong" : String) ≠ "Moderate" := by decide
  have hSL : ("Strong" : String) ≠ "Low" := by decide
  have hMS : ("Moderate" : String) ≠ "Strong" := by decide
  have hML : ("Moderate" : String) ≠ "Low" := by decide
  have hLS : ("Low" : String) ≠ "Strong" := by decide
  have hLM : ("Low" : String) ≠ "Moderate" := by decide
  refine ⟨?_, ?_, ?_, ?_, ?_⟩
  · unfold cap_rate_label
    split_ifs with h1 h2
    · exact iff_of_true rfl h1
    · exact iff_of_false hMS h1
    · exact iff_of_false hLS h1
  · unfold cap_rate_label
    split_ifs with h1 h2
    · exact iff_of_false hSM fun hc => absurd hc.2 (not_lt.mpr h1)
    · exact iff_of_true rfl ⟨h2, lt_of_not_le h1⟩
    · exact iff_of_false hLM fun hc => h2 hc.1
  · unfold cap_rate_label
    split_ifs with h1 h2
    · exact iff_of_false hSL (not_lt.mpr (le_trans (by norm_num) h1))
    · exact iff_of_false hML (not_lt.mpr h2)
    · exact iff_of_true rfl (lt_of_not_le h2)
  · norm_num [cap_rate_label]
  · norm_num [cap_rate_label]

/-- C4: with a down-payment percentage in `[0,100]` and a (non-negative)
purchase price, `down_payment + loan_amount = purchase_price` exactly,
`down_payment ≤ purchase_price` and `loan_amount ≥ 0`. -/
theorem C4_down_payment_loan_roundtrip (purchase_price pct : ℚ)
    (hpp : 0 ≤ purchase_price) (h0 : 0 ≤ pct) (h100 : pct ≤ 100) :
    down_payment purchase_price pct + loan_amount purchase_price pct = purchase_price ∧
    down_payment purchase_price pct ≤ purchase_price ∧
    0 ≤ loan_amount purchase_price pct := by
  simp only [loan_amount, down_payment]
  have hle : purchase_price * (pct / 100) ≤ purchase_price := by
    have h1 : pct / 100 ≤ 1 := by linarith
    have := mul_le_mul_of_nonneg_left h1 hpp
    linarith
  exact ⟨by ring, hle, by linarith⟩

/-- Witness for C4 at purchase price 500000, 20% down. -/
theorem C4_down_payment_loan_roundtrip_witness :
    (0 : ℚ) ≤ 500000 ∧ (0 : ℚ) ≤ 20 ∧ (20 : ℚ) ≤ 100 ∧
    (down_payment 500000 20 + loan_amount 500000 20 = 500000 ∧
      down_payment 500000 20 ≤ 500000 ∧ 0 ≤ loan_amount 500000 20) :=
  ⟨by norm_num, by norm_num, by norm_num,
   C4_down_payment_loan_roundtrip 500000 20 (by norm_num) (by norm_num) (by norm_num)⟩

/-- C5: for `rate ≥ 0` and `years > 0` the payment is non-negative on
non-negative principals and strictly increasing in the principal. -/
theorem C5_payment_nonneg_strict_mono (annual_rate : ℚ) (years : ℕ)
    (hr : 0 ≤ annual_rate) (hy : 0 < years) :
    (∀ principal : ℚ, 0 ≤ principal →
      0 ≤ calculate_monthly_mortgage_payment principal annual_rate years) ∧
    (∀ p1 p2 : ℚ, p1 < p2 →
      calculate_monthly_mortgage_payment p1 annual_rate years <
        calculate_monthly_mortgage_payment p2 annual_rate years) := by
  by_cases h : annual_rate = 0
  · subst h
    have h12 : (0 : ℚ) < (years : ℚ) * 12 := by
      have : (0 : ℚ) < (years : ℚ) := by exact_mod_cast hy
      linarith
    constructor
    · intro p hp
      simp only [calculate_monthly_mortgage_payment, if_pos rfl]
      exact div_nonneg hp h12.le
    · intro p1 p2 hlt
      simp only [calculate_monthly_mortgage_payment, if_pos rfl]
      exact div_lt_div_of_pos_right hlt h12
  · have hrpos : 0 < annual_rate := lt_of_le_of_ne hr (Ne.symm h)
    have hr' : 0 < annual_rate / 100 / 12 := by positivity
    have hD : 0 < (1 + annual_rate / 100 / 12) ^ (years * 12) - 1 :=
      amort_denom_pos annual_rate years hrpos hy
    have hA : 0 < annual_rate / 100 / 12 * (1 + annual_rate / 100 / 12) ^ (years * 12) := by
      have : (0 : ℚ) < (1 + annual_rate / 100 / 12) ^ (years * 12) := by positivity
      exact mul_pos hr' this
    constructor
    · intro p hp
      simp only [calculate_monthly_mortgage_payment, if_neg h]
      exact div_nonneg (mul_nonneg hp hA.le) hD.le
    · intro p1 p2 hlt
      simp only [calculate_monthly_mortgage_payment, if_neg h]
      exact div_lt_div_of_pos_right (mul_lt_mul_of_pos_right hlt hA) hD

/-- Witness for C5 at rate 6, 30 years, principals 100000 < 200000. -/
theorem C5_payment_nonneg_strict_mono_witness :
    (0 : ℚ) ≤ 6 ∧ 0 < 30 ∧ (0 : ℚ) ≤ 100000 ∧ (100000 : ℚ) < 200000 ∧
    0 ≤ calculate_monthly_mortgage_payment 100000 6 30 ∧
    calculate_monthly_mortgage_payment 100000 6 30 <
      calculate_monthly_mortgage_payment 200000 6 30 :=
  ⟨by norm_num, by norm_num, by norm_num, by norm_num,
   (C5_payment_nonneg_strict_mono 6 30 (by norm_num) (by norm_num)).1 100000 (by norm_num),
   (C5_payment_nonneg_strict_mono 6 30 (by norm_num) (by norm_num)).2 100000 200000
     (by norm_num)⟩

/-- C6: the effective gross income is `annualGrossRent * (1 - vacancy/100)`
for every vacancy rate (no clamping), and at annual rent `3000 * 12` with
5% vacancy it is `34200`. -/
theorem C6_egi_formula (annual_gross_rent vacancy_rate : ℚ) :
    calculate_egi annual_gross_rent vacancy_rate =
      annual_gross_rent * (1 - vacancy_rate / 100) ∧
    calculate_egi (3000 * 12) 5 = 34200 :=
  ⟨rfl, by norm_num [calculate_egi]⟩

/-- C7: PITI is the P&I payment plus monthly taxes and monthly insurance,
with no HOA term; the application adds the HOA on top, outside
`calculate_piti`. -/
theorem C7_piti_formula (principal annual_rate : ℚ) (years : ℕ)
    (annual_taxes annual_insurance monthly_hoa : ℚ) :
    calculate_piti principal annual_rate years annual_taxes annual_insurance =
      calculate_monthly_mortgage_payment principal annual_rate years
        + annual_taxes / 12 + annual_insurance / 12 ∧
    app_piti principal annual_rate annual_taxes annual_insurance monthly_hoa =
      calculate_piti principal annual_rate 30 annual_taxes annual_insurance + monthly_hoa :=
  ⟨rfl, rfl⟩

set_option maxRecDepth 4000 in
/-- C8: on principal 400000, rate 6.0, 30 years the payment is within 1 of
2398.20 (exact rational evaluation of the amortization formula). -/
theorem C8_scenario_a_payment_near_2398_20 :
    |calculate_monthly_mortgage_payment 400000 6 30 - 2398.20| ≤ 1 := by
  have h : calculate_monthly_mortgage_payment 400000 6 30 =
      400000 * ((6 / 100 / 12 : ℚ) * (1 + 6 / 100 / 12) ^ (30 * 12)) /
        ((1 + 6 / 100 / 12) ^ (30 * 12) - 1) := by
    simp only [calculate_monthly_mortgage_payment, if_neg (by norm_num : (6 : ℚ) ≠ 0)]
  rw [h, abs_le]
  norm_num

/-- C9: the application's monthly cash flow subtracts a payment that
includes HOA: it equals `noi/12 - (PITI + HOA)`, hence for a positive HOA
it is strictly below `noi/12 - PITI`. -/
theorem C9_cash_flow_includes_hoa
    (noi loan_amt interest_rate annual_property_tax annual_insurance monthly_hoa : ℚ) :
    app_monthly_cash_flow noi loan_amt interest_rate annual_property_tax
        annual_insurance monthly_hoa =
      noi / 12 -
        (calculate_piti loan_amt interest_rate 30 annual_property_tax annual_insurance
          + monthly_hoa) ∧
    (0 < monthly_hoa →
      app_monthly_cash_flow noi loan_amt interest_rate annual_property_tax
          annual_insurance monthly_hoa <
        noi / 12 -
          calculate_piti loan_amt interest_rate 30 annual_property_tax annual_insurance) := by
  constructor
  · simp only [app_monthly_cash_flow, app_piti, calculate_cash_flow]
  · intro hhoa
    simp only [app_monthly_cash_flow, app_piti, calculate_cash_flow]
    linarith

/-- Witness for C9 with HOA 250. -/
theorem C9_cash_flow_includes_hoa_witness :
    (0 : ℚ) < 250 ∧
    app_monthly_cash_flow 24000 400000 6 8000 2000 250 <
      24000 / 12 - calculate_piti 400000 6 30 8000 2000 :=
  ⟨by norm_num,
   (C9_cash_flow_includes_hoa 24000 400000 6 8000 2000 250).2 (by norm_num)⟩

/-- C10: at `years = 0` the payment is undefined for every principal and
rate — both possible denominators (`years*12` and `(1+r)^(years*12) - 1`)
are `0`, so the error-aware function returns `none`; with `years > 0` (and
a non-negative rate, as the application's slider guarantees) it is
defined and agrees with the total function. -/
theorem C10_undefined_at_zero_years (principal annual_rate : ℚ) :
    calculate_monthly_mortgage_paymentE principal annual_rate 0 = none ∧
    (((0 : ℕ) : ℚ) * 12 = 0 ∧
      (1 + annual_rate / 100 / 12) ^ ((0 : ℕ) * 12) - 1 = 0) ∧
    (∀ years : ℕ, 0 < years → 0 ≤ annual_rate →
      calculate_monthly_mortgage_paymentE principal annual_rate years =
        some (calculate_monthly_mortgage_payment principal annual_rate years)) := by
  refine ⟨?_, ⟨by norm_num, by norm_num⟩, ?_⟩
  · by_cases h : annual_rate = 0
    · simp [calculate_monthly_mortgage_paymentE, h]
    · simp [calculate_monthly_mortgage_paymentE, h]
  · intro years hy hr
    by_cases h : annual_rate = 0
    · have h12 : ((years : ℚ) * 12) ≠ 0 := by
        have : (0 : ℚ) < (years : ℚ) := by exact_mod_cast hy
        positivity
      simp only [calculate_monthly_mortgage_paymentE, calculate_monthly_mortgage_payment,
        if_pos h, if_neg h12]
    · have hrpos : 0 < annual_rate := lt_of_le_of_ne hr (Ne.symm h)
      have hD : 0 < (1 + annual_rate / 100 / 12) ^ (years * 12) - 1 :=
        amort_denom_pos annual_rate years hrpos hy
      simp only [calculate_monthly_mortgage_paymentE, calculate_monthly_mortgage_payment,
        if_neg h, if_neg hD.ne.symm]

/-- Witness for C10 with rate 6 and term 30. -/
theorem C10_undefined_at_zero_years_witness :
    calculate_monthly_mortgage_paymentE 400000 6 0 = none ∧
    (0 < 30 ∧ (0 : ℚ) ≤ 6 ∧
      calculate_monthly_mortgage_paymentE 400000 6 30 =
        some (calculate_monthly_mortgage_payment 400000 6 30)) :=
  ⟨(C10_undefined_at_zero_years 400000 6).1,
   by norm_num, by norm_num,
   (C10_undefined_at_zero_years 400000 6).2.2 30 (by norm_num) (by norm_num)⟩

end Luntra
